import Mathlib

/-!
Verification of the transfer-transaction workflow of the `inout` personal
finance tracker.

The embedding follows the two source files of the transfer core:

* `src/features/transactions/components/transfer-sheet.tsx` — the
  `onSubmit` handler of the transfer sheet: amount parsing, validation
  (invalid amount, same account, insufficient funds), find-or-create of the
  reserved "Transferências" category, construction of the paired
  outflow/inflow transactions, and the bulk-create call.
* `src/features/transactions/hooks/use-transfer.ts` — the zustand session
  store (`isOpen`, `fromAccountId`, `onOpen`, `onClose`).

Monetary values are decimal strings on the form and signed integers in
miliunits in storage.  JavaScript's `parseFloat` is modelled as a function
`String → Option JsNum` over finite decimal literals (optional sign,
digits, optional fractional part, optional exponent, trailing garbage
ignored, `none` when no significand digit is found); `Infinity` literals
are outside the model.  A `JsNum` is the exact rational value of the
parsed literal, kept as an integer numerator over a positive power-of-ten
denominator so that every operation is computable by the kernel; the
bridge lemmas `JsNum.toRat_nonpos_iff` and
`convertAmountToMiliunits_eq_round` relate it to the rational value it
denotes.  `values.amount.replace(",", ".")` replaces only the first
occurrence, which `replaceFirstComma` mirrors exactly.
-/

namespace Inout

/-- JavaScript leading whitespace accepted by `parseFloat`
(space, tab, line feed, carriage return). -/
def isJsWhitespace (c : Char) : Bool :=
  c = ' ' || c = '\t' || c = '\n' || c = '\r'

/-- Value of a list of decimal digit characters, most significant first. -/
def digitsToNat (ds : List Char) : Nat :=
  ds.foldl (fun acc c => 10 * acc + (c.toNat - '0'.toNat)) 0

/-- Optional sign at the head of the character stream: `true` means negative. -/
def parseSign : List Char → Bool × List Char
  | '-' :: cs => (true, cs)
  | '+' :: cs => (false, cs)
  | cs => (false, cs)

/-- Exponent part of a `parseFloat` literal: `e`/`E`, optional sign, digits.
If the digits are missing the exponent part is not consumed and counts as 0,
as in JavaScript (`parseFloat("1e") = 1`). -/
def parseExponent (cs : List Char) : Int :=
  match cs with
  | c :: rest =>
    if c = 'e' || c = 'E' then
      let sr := parseSign rest
      let eds := sr.2.takeWhile Char.isDigit
      if eds = [] then 0
      else if sr.1 then -(digitsToNat eds : Int) else (digitsToNat eds : Int)
    else 0
  | [] => 0

/-- The exact rational value of a finite JavaScript number: `num / den`,
with `den` a positive power of ten by construction of the parser. -/
structure JsNum where
  num : Int
  den : Nat
deriving DecidableEq

/-- The rational value a `JsNum` denotes. -/
def JsNum.toRat (x : JsNum) : ℚ :=
  (x.num : ℚ) / (x.den : ℚ)

/-- Model of JavaScript `parseFloat` on a character list, restricted to
finite decimal literals: leading whitespace skipped, optional sign, integer
digits, optional `.` and fraction digits, optional exponent; everything
after the longest valid prefix is ignored; `none` iff the significand has
no digit at all (JavaScript `NaN`).  The result is the literal's exact
value `mantissa · 10^exponent` as a `JsNum`. -/
def parseFloatChars (cs : List Char) : Option JsNum :=
  let cs1 := cs.dropWhile isJsWhitespace
  let sr := parseSign cs1
  let intDs := sr.2.takeWhile Char.isDigit
  let afterInt := sr.2.dropWhile Char.isDigit
  let fracState : List Char × List Char :=
    match afterInt with
    | '.' :: rest => (rest.takeWhile Char.isDigit, rest.dropWhile Char.isDigit)
    | _ => ([], afterInt)
  if intDs = [] ∧ fracState.1 = [] then none
  else
    let mantNat : Nat := digitsToNat intDs * 10 ^ fracState.1.length + digitsToNat fracState.1
    let mantNum : Int := if sr.1 then -(mantNat : Int) else (mantNat : Int)
    let e : Int := parseExponent fracState.2
    some (if 0 ≤ e then ⟨mantNum * 10 ^ e.toNat, 10 ^ fracState.1.length⟩
          else ⟨mantNum, 10 ^ fracState.1.length * 10 ^ (-e).toNat⟩)

/-- `s.replace(",", ".")` in JavaScript with a string pattern replaces only
the FIRST occurrence of `","`; this is that operation on the character list. -/
def replaceFirstComma : List Char → List Char
  | [] => []
  | c :: cs => if c = ',' then '.' :: cs else c :: replaceFirstComma cs

/-- `parseFloat(values.amount.replace(",", "."))` from `onSubmit`
(transfer-sheet.tsx line 111). -/
def parseAmount (s : String) : Option JsNum :=
  parseFloatChars (replaceFirstComma s.data)

/-- Modelled from the spec: `convertAmountToMiliunits` is imported from
`@/lib/utils`, which is not under `src/`; spec §4.1 says the codec scales
the parsed value by 1000 and rounds to the nearest integer (JavaScript
`Math.round`, i.e. `⌊v·1000 + 1/2⌋`).  For the exact value `n/d` this is
`⌊(2000·n + d) / (2·d)⌋`, computed with integer floor division; the lemma
`convertAmountToMiliunits_eq_round` proves it equal to
`round (toRat · * 1000)`. -/
def convertAmountToMiliunits (x : JsNum) : Int :=
  Int.fdiv (2000 * x.num + (x.den : Int)) (2 * (x.den : Int))

/-- Category row as consumed by the transfer sheet: `id` and `name`. -/
structure Category where
  id : String
  name : String
deriving DecidableEq

/-- Account row as consumed by the transfer sheet: `id` and `name`. -/
structure Account where
  id : String
  name : String
deriving DecidableEq

/-- One element of the bulk-create payload (transfer-sheet.tsx lines
153-170): date, account id, category id, payee text, signed miliunit
amount, optional notes. -/
structure Txn where
  date : Nat
  accountId : String
  categoryId : String
  payee : String
  amount : Int
  notes : Option String
deriving DecidableEq

/-- The validated form values handed to `onSubmit` (schema lines 43-49):
`date`, `fromAccountId`, `toAccountId`, the raw `amount` string, optional
`notes` (`undefined` and `null` collapse to `none` because the payload uses
`values.notes ?? null`). -/
structure FormValues where
  date : Nat
  fromAccountId : String
  toAccountId : String
  amount : String
  notes : Option String
deriving DecidableEq

/-- The collaborator data visible to one `onSubmit` run:
`categories` is `categoryQuery.data ?? []`, `accounts` is
`accountsQuery.data ?? []`, `createCategoryResult` is the `res?.data` a
`createCategory.mutateAsync` call would yield, `balanceQueryData` is
`balanceQuery.data?.remainingAmount` (`none` when the query has produced no
data), and `bulkCreateOk` is whether the bulk-create collaborator call
succeeds. -/
structure Env where
  categories : List Category
  accounts : List Account
  createCategoryResult : Option Category
  balanceQueryData : Option Int
  bulkCreateOk : Bool
deriving DecidableEq

/-- `const remaining = balanceQuery.data?.remainingAmount ?? 0`
(transfer-sheet.tsx line 185). -/
def remainingOf (env : Env) : Int :=
  env.balanceQueryData.getD 0

/-- The five error kinds of spec §7. -/
inductive TransferError
  | InvalidAmount
  | SameAccount
  | InsufficientFunds
  | CategoryResolutionFailed
  | SubmissionFailed
deriving DecidableEq

/-- Either an error or the payload successfully handed to bulk-create. -/
inductive SubmitResult
  | error (e : TransferError)
  | ok (payload : List Txn)
deriving DecidableEq

/-- Observable effects of one `onSubmit` run, in program order:
`validate` marks the validation block (lines 111-125), `resolve` the
category find-or-create block (lines 128-143), `createCategory` a
`createCategory.mutateAsync` call, `bulkCreate` a
`bulkCreate.mutateAsync` call, `toast e` a transient `toastAlert`
notification for error `e`, and `close` the final `onClose()`. -/
inductive Ev
  | validate
  | resolve
  | createCategory
  | bulkCreate
  | close
  | toast (e : TransferError)
deriving DecidableEq

/-- Full outcome of an `onSubmit` run: the result, the payload given to the
bulk-create collaborator (when that call was made), the effect trace, and
whether the sheet was closed. -/
structure SubmitOutcome where
  result : SubmitResult
  bulkPayload : Option (List Txn)
  events : List Ev
  closed : Bool
deriving DecidableEq

/-- Name of the reserved transfer category (transfer-sheet.tsx line 128). -/
def transferCategoryName : String := "Transferências"

/-- The two-transaction bulk-create payload (transfer-sheet.tsx lines
145-170): outflow `-Math.abs(amountMili)` from the source account, inflow
`+Math.abs(amountMili)` to the target account, shared date, category id and
notes; payees interpolate the counterparty's name, falling back to the
counterparty's id when the account lookup misses. -/
def buildPayload (env : Env) (values : FormValues) (cat : Category)
    (amountMili : Int) : List Txn :=
  let fromAccountName :=
    (env.accounts.find? (fun a => a.id = values.fromAccountId)).map Account.name
  let toAccountName :=
    (env.accounts.find? (fun a => a.id = values.toAccountId)).map Account.name
  [⟨values.date, values.fromAccountId, cat.id,
     "Transferência para " ++ (toAccountName.getD values.toAccountId),
     -|amountMili|, values.notes⟩,
   ⟨values.date, values.toAccountId, cat.id,
     "Transferência de " ++ (fromAccountName.getD values.fromAccountId),
     |amountMili|, values.notes⟩]

/-- The tail of `onSubmit` after a category has been resolved
(transfer-sheet.tsx lines 145-183): build the payload, call
`bulkCreate.mutateAsync`, and on success reset the form and `onClose()`.
`createEvs` records whether a `createCategory.mutateAsync` call happened
during resolution.

Modelled from the spec: the `SubmissionFailed` toast lives in the
`useBulkCreateTransactions` hook, which is not under `src/`; spec §7 says a
failed bulk-create is surfaced as a transient notification, so the
`bulkCreateOk = false` branch emits `Ev.toast .SubmissionFailed`. -/
def submitStage (env : Env) (values : FormValues) (cat : Category)
    (amountMili : Int) (createEvs : List Ev) : SubmitOutcome :=
  let payload := buildPayload env values cat amountMili
  if env.bulkCreateOk then
    ⟨.ok payload, some payload,
      [.validate, .resolve] ++ createEvs ++ [.bulkCreate, .close], true⟩
  else
    ⟨.error .SubmissionFailed, some payload,
      [.validate, .resolve] ++ createEvs ++ [.bulkCreate, .toast .SubmissionFailed], false⟩

/-- The category find-or-create block of `onSubmit` (transfer-sheet.tsx
lines 127-143): look for "Transferências" in `categoryQuery.data ?? []`;
when absent call `createCategory.mutateAsync` and take `res?.data`; when
still absent, toast and return (`CategoryResolutionFailed`); otherwise
continue with the resolved category. -/
def resolveStage (env : Env) (values : FormValues) (amountMili : Int) : SubmitOutcome :=
  match env.categories.find? (fun c => c.name = transferCategoryName) with
  | some cat => submitStage env values cat amountMili []
  | none =>
    match env.createCategoryResult with
    | some cat => submitStage env values cat amountMili [.createCategory]
    | none =>
      ⟨.error .CategoryResolutionFailed, none,
        [.validate, .resolve, .createCategory, .toast .CategoryResolutionFailed], false⟩

/-- The `onSubmit` handler of the transfer sheet (transfer-sheet.tsx lines
110-183), validation part (lines 110-125):

1. `parseFloat(values.amount.replace(",", "."))`; on `NaN` or a value ≤ 0
   return silently (line 112 has no `toastAlert`); since the `JsNum`
   denominator is positive, `value ≤ 0` is `num ≤ 0`
   (`JsNum.toRat_nonpos_iff`).
2. `fromAccountId === toAccountId` → toast and return (`SameAccount`).
3. `Math.abs(amountMili) > Math.abs(remaining)` → toast and return
   (`InsufficientFunds`).

Then category resolution (`resolveStage`) and submission (`submitStage`). -/
def onSubmit (env : Env) (values : FormValues) : SubmitOutcome :=
  match parseAmount values.amount with
  | none => ⟨.error .InvalidAmount, none, [.validate], false⟩
  | some amountFloat =>
    if amountFloat.num ≤ 0 then
      ⟨.error .InvalidAmount, none, [.validate], false⟩
    else
      let amountMili := convertAmountToMiliunits amountFloat
      if values.fromAccountId = values.toAccountId then
        ⟨.error .SameAccount, none, [.validate, .toast .SameAccount], false⟩
      else if |amountMili| > |remainingOf env| then
        ⟨.error .InsufficientFunds, none, [.validate, .toast .InsufficientFunds], false⟩
      else
        resolveStage env values amountMili

/-- The transfer session store (use-transfer.ts lines 3-8):
`isOpen` and the optional preselected source account id. -/
structure TransferState where
  isOpen : Bool
  fromAccountId : Option String
deriving DecidableEq

/-- Initial store value (use-transfer.ts lines 11-12). -/
def initialTransferState : TransferState :=
  ⟨false, none⟩

/-- `onOpen: set({ isOpen: true, fromAccountId })` (use-transfer.ts line 13). -/
def onOpen (_s : TransferState) (fromAccountId : Option String) : TransferState :=
  ⟨true, fromAccountId⟩

/-- `onClose: set({ isOpen: false, fromAccountId: undefined })`
(use-transfer.ts line 14). -/
def onClose (_s : TransferState) : TransferState :=
  ⟨false, none⟩

/-- One store operation: an `onOpen` with its optional argument, or `onClose`. -/
inductive TransferOp
  | opOpen (fromAccountId : Option String)
  | opClose
deriving DecidableEq

/-- Apply one store operation to a state. -/
def applyOp (s : TransferState) : TransferOp → TransferState
  | .opOpen fid => onOpen s fid
  | .opClose => onClose s

/-- Run a sequence of store operations from the initial state. -/
def runOps (ops : List TransferOp) : TransferState :=
  ops.foldl applyOp initialTransferState

/-! ## Helper lemmas -/

/-- Any single store operation re-establishes the closed-session invariant,
whatever state it is applied to. -/
theorem applyOp_closed_inv (s : TransferState) (op : TransferOp) :
    (applyOp s op).isOpen = false → (applyOp s op).fromAccountId = none := by
  cases op <;> simp [applyOp, onOpen, onClose]

theorem foldl_closed_inv (ops : List TransferOp) (s : TransferState)
    (h : s.isOpen = false → s.fromAccountId = none) :
    (ops.foldl applyOp s).isOpen = false → (ops.foldl applyOp s).fromAccountId = none := by
  induction ops generalizing s with
  | nil => exact h
  | cons op ops ih => exact ih (applyOp s op) (applyOp_closed_inv s op)

/-- A character list without a comma is left unchanged by
`replaceFirstComma`. -/
theorem replaceFirstComma_of_not_mem (cs : List Char) (h : ',' ∉ cs) :
    replaceFirstComma cs = cs := by
  induction cs with
  | nil => rfl
  | cons c cs ih =>
    simp only [List.mem_cons, not_or] at h
    simp only [replaceFirstComma, if_neg (fun hc : c = ',' => h.1 hc.symm), ih h.2]

/-- `replaceFirstComma` rewrites the first comma to a dot and leaves the
rest of the list untouched. -/
theorem replaceFirstComma_append_comma (a b : List Char) (h : ',' ∉ a) :
    replaceFirstComma (a ++ ',' :: b) = a ++ '.' :: b := by
  induction a with
  | nil => simp [replaceFirstComma]
  | cons c cs ih =>
    simp only [List.mem_cons, not_or] at h
    simp only [List.cons_append, replaceFirstComma, if_neg (fun hc : c = ',' => h.1 hc.symm),
      List.append_eq, ih h.2]

/-- The parser only builds positive power-of-ten denominators. -/
theorem parseFloatChars_den_pos (cs : List Char) (x : JsNum)
    (h : parseFloatChars cs = some x) : 0 < x.den := by
  simp only [parseFloatChars] at h
  split at h
  · exact absurd h (by simp)
  · split at h <;> (obtain rfl := (Option.some.inj h).symm; positivity)

/-- The parser's result has a positive denominator. -/
theorem parseAmount_den_pos (s : String) (x : JsNum) (h : parseAmount s = some x) :
    0 < x.den :=
  parseFloatChars_den_pos _ x h

/-- With a positive denominator, the sign test `value ≤ 0` used by
`onSubmit` is exactly `num ≤ 0`. -/
theorem JsNum.toRat_nonpos_iff (x : JsNum) (hd : 0 < x.den) :
    x.toRat ≤ 0 ↔ x.num ≤ 0 := by
  have hden : (0 : ℚ) < (x.den : ℚ) := by exact_mod_cast hd
  constructor
  · intro h
    by_contra hpos
    push_neg at hpos
    have hlt : (0 : ℚ) < (x.num : ℚ) / (x.den : ℚ) :=
      div_pos (by exact_mod_cast hpos) hden
    exact absurd h hlt.not_le
  · intro h
    exact div_nonpos_iff.mpr (Or.inr ⟨by exact_mod_cast h, hden.le⟩)

/-- The integer-only miliunit formula computes exactly
`Math.round(value * 1000)`, i.e. `round` of the denoted rational scaled by
1000. -/
theorem convertAmountToMiliunits_eq_round (x : JsNum) (hd : 0 < x.den) :
    convertAmountToMiliunits x = round (x.toRat * 1000) := by
  have hden : (0 : ℚ) < (x.den : ℚ) := by exact_mod_cast hd
  have hkey : x.toRat * 1000 + 1 / 2 =
      ((2000 * x.num + (x.den : Int) : Int) : ℚ) / ((2 * x.den : ℕ) : ℚ) := by
    rw [JsNum.toRat]
    push_cast
    field_simp
    ring
  rw [round_eq, hkey, Rat.floor_intCast_div_natCast]
  rw [convertAmountToMiliunits, Int.fdiv_eq_ediv _ (by positivity)]
  push_cast
  rfl

/-- An error produced after validation is a resolution or submission error. -/
theorem resolveStage_error_cases (env : Env) (v : FormValues) (m : Int) (e : TransferError)
    (h : (resolveStage env v m).result = .error e) :
    e = .CategoryResolutionFailed ∨ e = .SubmissionFailed := by
  unfold resolveStage submitStage at h
  split at h
  · split at h
    · simp at h
    · simp at h; exact Or.inr h.symm
  · split at h
    · split at h
      · simp at h
      · simp at h; exact Or.inr h.symm
    · simp at h; exact Or.inl h.symm

/-- The stages after validation never produce a validation error. -/
theorem resolveStage_result_ne_validation (env : Env) (v : FormValues) (m : Int)
    (e : TransferError)
    (he : e = .InvalidAmount ∨ e = .SameAccount ∨ e = .InsufficientFunds) :
    (resolveStage env v m).result ≠ .error e := by
  intro h
  rcases resolveStage_error_cases env v m e h with h1 | h1 <;>
    rcases he with he | he | he <;> rw [he] at h1 <;> simp at h1

/-- Every branch after validation toasts the error it fails with. -/
theorem resolveStage_toast (env : Env) (v : FormValues) (m : Int) (e : TransferError)
    (h : (resolveStage env v m).result = .error e) :
    Ev.toast e ∈ (resolveStage env v m).events := by
  unfold resolveStage submitStage at h ⊢
  split at h
  · split at h <;> split <;> simp_all
  · split at h
    · split at h <;> split <;> simp_all
    · simp at h
      rw [← h]
      decide

/-- Every branch after validation starts its trace with the validation
marker. -/
theorem resolveStage_events_head (env : Env) (v : FormValues) (m : Int) :
    (resolveStage env v m).events.head? = some .validate := by
  unfold resolveStage submitStage
  split
  · split <;> rfl
  · split
    · split <;> rfl
    · rfl

/-- The payload the submission stage hands to the bulk-create collaborator
is exactly `buildPayload`. -/
theorem submitStage_bulkPayload (env : Env) (v : FormValues) (cat : Category)
    (m : Int) (evs : List Ev) (p : List Txn)
    (h : (submitStage env v cat m evs).bulkPayload = some p) :
    p = buildPayload env v cat m := by
  unfold submitStage at h
  split at h <;> (simp at h; exact h.symm)

/-- The submission stage never emits a category-creation call of its own:
only the `createEvs` it is passed. -/
theorem submitStage_createCategory_not_mem (env : Env) (v : FormValues) (cat : Category)
    (m : Int) (h : Ev.createCategory ∈ (submitStage env v cat m []).events) : False := by
  unfold submitStage at h
  split at h <;> simp at h

/-! ## Claim theorems -/

/-- C9: starting from the initial transfer-session state, after any
sequence of `onOpen`/`onClose` operations, a closed session (`isOpen =
false`) never retains a preselected source account id. -/
theorem c9_closed_session_has_no_preselection (ops : List TransferOp)
    (h : (runOps ops).isOpen = false) : (runOps ops).fromAccountId = none :=
  foldl_closed_inv ops initialTransferState (fun _ => rfl) h

theorem c9_closed_session_has_no_preselection_witness :
    (runOps [TransferOp.opOpen (some "acc_1"), TransferOp.opClose]).isOpen = false ∧
    (runOps [TransferOp.opOpen (some "acc_1"), TransferOp.opClose]).fromAccountId = none :=
  ⟨by decide, c9_closed_session_has_no_preselection _ (by decide)⟩

/-- C1: whenever `onSubmit` hands a payload to the bulk-create
collaborator, it is exactly two transactions whose amounts are
`-|amountMili|` and `+|amountMili|` for the parsed amount — additive
inverses summing to zero — sharing the same date, category id and notes. -/
theorem c1_bulk_payload_is_balanced_pair (env : Env) (v : FormValues) (p : List Txn)
    (h : (onSubmit env v).bulkPayload = some p) :
    ∃ t₁ t₂ q, p = [t₁, t₂] ∧
      parseAmount v.amount = some q ∧
      t₁.amount = -|convertAmountToMiliunits q| ∧
      t₂.amount = |convertAmountToMiliunits q| ∧
      t₁.amount + t₂.amount = 0 ∧
      t₁.date = t₂.date ∧ t₁.categoryId = t₂.categoryId ∧ t₁.notes = t₂.notes := by
  unfold onSubmit at h
  split at h
  · simp at h
  next q hq =>
    dsimp only at h
    split at h
    · simp at h
    · split at h
      · simp at h
      · split at h
        · simp at h
        · unfold resolveStage at h
          split at h
          next cat _ =>
            obtain rfl := submitStage_bulkPayload env v cat _ [] p h
            exact ⟨_, _, q, rfl, hq, rfl, rfl, by simp, rfl, rfl, rfl⟩
          · split at h
            next cat _ =>
              obtain rfl := submitStage_bulkPayload env v cat _ [.createCategory] p h
              exact ⟨_, _, q, rfl, hq, rfl, rfl, by simp, rfl, rfl, rfl⟩
            · simp at h

/-- Sample collaborator data: transfer category present, two named
accounts, remaining balance 100000 miliunits, bulk-create succeeds. -/
def envOk : Env :=
  ⟨[⟨"cat_transfer", "Transferências"⟩],
   [⟨"acc_1", "Conta A"⟩, ⟨"acc_2", "Conta B"⟩], none, some 100000, true⟩

/-- Sample form values: transfer 40.00 from `acc_1` to `acc_2`. -/
def valsOk : FormValues := ⟨1, "acc_1", "acc_2", "40.00", none⟩

/-- Sample collaborator data with a remaining balance of 10000 miliunits
(10.00). -/
def envLow : Env :=
  ⟨[⟨"cat_transfer", "Transferências"⟩], [], none, some 10000, true⟩

theorem c1_bulk_payload_is_balanced_pair_witness :
    ∃ t₁ t₂ q,
      ([⟨1, "acc_1", "cat_transfer", "Transferência para Conta B", -40000, none⟩,
        ⟨1, "acc_2", "cat_transfer", "Transferência de Conta A", 40000, none⟩] : List Txn) =
        [t₁, t₂] ∧
      parseAmount valsOk.amount = some q ∧
      t₁.amount = -|convertAmountToMiliunits q| ∧
      t₂.amount = |convertAmountToMiliunits q| ∧
      t₁.amount + t₂.amount = 0 ∧
      t₁.date = t₂.date ∧ t₁.categoryId = t₂.categoryId ∧ t₁.notes = t₂.notes :=
  c1_bulk_payload_is_balanced_pair envOk valsOk _ (by decide)

/-- C2: when validation rejects (`InvalidAmount`, `SameAccount` or
`InsufficientFunds`) nothing has been written: no category-creation call,
no bulk-create call, no payload handed over, and the sheet stays open. -/
theorem c2_validation_rejects_before_any_write (env : Env) (v : FormValues)
    (e : TransferError)
    (he : e = .InvalidAmount ∨ e = .SameAccount ∨ e = .InsufficientFunds) :
    (onSubmit env v).result = .error e →
      Ev.createCategory ∉ (onSubmit env v).events ∧
      Ev.bulkCreate ∉ (onSubmit env v).events ∧
      (onSubmit env v).bulkPayload = none ∧
      (onSubmit env v).closed = false := by
  unfold onSubmit
  split
  · intro _; exact ⟨by decide, by decide, rfl, rfl⟩
  · split
    · intro _; exact ⟨by decide, by decide, rfl, rfl⟩
    · dsimp only
      split
      · intro _; exact ⟨by decide, by decide, rfl, rfl⟩
      · split
        · intro _; exact ⟨by decide, by decide, rfl, rfl⟩
        · intro hres
          exact absurd hres (resolveStage_result_ne_validation env v _ e he)

theorem c2_validation_rejects_before_any_write_witness :
    Ev.createCategory ∉ (onSubmit envLow ⟨1, "acc_1", "acc_2", "50.00", none⟩).events ∧
    Ev.bulkCreate ∉ (onSubmit envLow ⟨1, "acc_1", "acc_2", "50.00", none⟩).events ∧
    (onSubmit envLow ⟨1, "acc_1", "acc_2", "50.00", none⟩).bulkPayload = none ∧
    (onSubmit envLow ⟨1, "acc_1", "acc_2", "50.00", none⟩).closed = false :=
  c2_validation_rejects_before_any_write envLow ⟨1, "acc_1", "acc_2", "50.00", none⟩
    .InsufficientFunds (Or.inr (Or.inr rfl)) (by decide)

/-- C3 fails on the code: with source = target and the transfer category
already present, the validator runs and rejects while the category
resolver is never reached, so the resolver is not called first on every
submission. -/
theorem c3_counterexample_validator_runs_without_resolver :
    Ev.validate ∈ (onSubmit envOk ⟨1, "acc_1", "acc_1", "10", none⟩).events ∧
    Ev.resolve ∉ (onSubmit envOk ⟨1, "acc_1", "acc_1", "10", none⟩).events := by
  decide

/-- C3 amended: on every submission the orchestrator runs the Transfer
Validator first (the effect trace starts with the validation step), and
the Category Resolver runs only afterwards, on submissions where
validation produced no rejection. -/
theorem c3_amended_validator_first_then_resolver (env : Env) (v : FormValues) :
    (onSubmit env v).events.head? = some .validate ∧
    (Ev.resolve ∈ (onSubmit env v).events →
      (onSubmit env v).result ≠ .error .InvalidAmount ∧
      (onSubmit env v).result ≠ .error .SameAccount ∧
      (onSubmit env v).result ≠ .error .InsufficientFunds) := by
  unfold onSubmit
  split
  · exact ⟨rfl, by intro hmem; simp at hmem⟩
  · split
    · exact ⟨rfl, by intro hmem; simp at hmem⟩
    · dsimp only
      split
      · exact ⟨rfl, by intro hmem; simp at hmem⟩
      · split
        · exact ⟨rfl, by intro hmem; simp at hmem⟩
        · exact ⟨resolveStage_events_head env v _, fun _ =>
            ⟨resolveStage_result_ne_validation env v _ _ (Or.inl rfl),
             resolveStage_result_ne_validation env v _ _ (Or.inr (Or.inl rfl)),
             resolveStage_result_ne_validation env v _ _ (Or.inr (Or.inr rfl))⟩⟩

theorem c3_amended_validator_first_then_resolver_witness :
    (onSubmit envOk valsOk).events.head? = some .validate ∧
    ((onSubmit envOk valsOk).result ≠ .error .InvalidAmount ∧
     (onSubmit envOk valsOk).result ≠ .error .SameAccount ∧
     (onSubmit envOk valsOk).result ≠ .error .InsufficientFunds) :=
  ⟨(c3_amended_validator_first_then_resolver envOk valsOk).1,
   (c3_amended_validator_first_then_resolver envOk valsOk).2 (by decide)⟩

/-- C4: given a parsed positive amount and distinct accounts, the
submission fails with `InsufficientFunds` exactly when the miliunit
amount's absolute value exceeds the remaining figure's absolute value;
the boundary (equality) is accepted, and only the absolute value of the
remaining figure matters, so a negative remaining balance permits any
transfer within its magnitude. -/
theorem c4_insufficient_funds_iff_abs_exceeds (env : Env) (v : FormValues) (q : JsNum)
    (hq : parseAmount v.amount = some q) (h0 : 0 < q.num)
    (hne : v.fromAccountId ≠ v.toAccountId) :
    ((onSubmit env v).result = .error .InsufficientFunds ↔
      |convertAmountToMiliunits q| > |remainingOf env|) := by
  unfold onSubmit
  simp only [hq]
  rw [if_neg (not_le.mpr h0), if_neg hne]
  split
  next hgt => exact iff_of_true rfl hgt
  next hle =>
    exact iff_of_false
      (resolveStage_result_ne_validation env v _ _ (Or.inr (Or.inr rfl))) hle

theorem c4_insufficient_funds_iff_abs_exceeds_witness :
    (onSubmit envLow ⟨1, "acc_1", "acc_2", "50.00", none⟩).result =
        .error .InsufficientFunds ↔
      |convertAmountToMiliunits ⟨5000, 100⟩| > |remainingOf envLow| :=
  c4_insufficient_funds_iff_abs_exceeds envLow ⟨1, "acc_1", "acc_2", "50.00", none⟩
    ⟨5000, 100⟩ (by decide) (by decide) (by decide)

/-- C5 fails on the code: with a non-numeric amount string, a submission
with identical source and target accounts is rejected by the amount check
(line 112), not with `SameAccount`. -/
theorem c5_counterexample_invalid_amount_preempts :
    (⟨1, "acc_1", "acc_1", "abc", none⟩ : FormValues).fromAccountId =
      (⟨1, "acc_1", "acc_1", "abc", none⟩ : FormValues).toAccountId ∧
    (onSubmit envOk ⟨1, "acc_1", "acc_1", "abc", none⟩).result ≠ .error .SameAccount ∧
    (onSubmit envOk ⟨1, "acc_1", "acc_1", "abc", none⟩).result = .error .InvalidAmount := by
  decide

/-- C5 amended: for every submission whose amount parses to a positive
value, source = target is rejected with `SameAccount` for every possible
remaining balance — no balance comparison is involved and no insufficient-
funds toast, category-creation call or bulk-create call happens. -/
theorem c5_amended_same_account_rejected (env : Env) (v : FormValues) (q : JsNum)
    (hq : parseAmount v.amount = some q) (h0 : 0 < q.num)
    (heq : v.fromAccountId = v.toAccountId) :
    (onSubmit env v).result = .error .SameAccount ∧
    Ev.toast .InsufficientFunds ∉ (onSubmit env v).events ∧
    Ev.createCategory ∉ (onSubmit env v).events ∧
    Ev.bulkCreate ∉ (onSubmit env v).events := by
  unfold onSubmit
  simp only [hq]
  rw [if_neg (not_le.mpr h0), if_pos heq]
  exact ⟨rfl, by decide, by decide, by decide⟩

theorem c5_amended_same_account_rejected_witness :
    (onSubmit envOk ⟨1, "acc_1", "acc_1", "10", none⟩).result = .error .SameAccount ∧
    Ev.toast .InsufficientFunds ∉ (onSubmit envOk ⟨1, "acc_1", "acc_1", "10", none⟩).events ∧
    Ev.createCategory ∉ (onSubmit envOk ⟨1, "acc_1", "acc_1", "10", none⟩).events ∧
    Ev.bulkCreate ∉ (onSubmit envOk ⟨1, "acc_1", "acc_1", "10", none⟩).events :=
  c5_amended_same_account_rejected envOk ⟨1, "acc_1", "acc_1", "10", none⟩ ⟨10, 1⟩
    (by decide) (by decide) (by decide)

/-- Environment with no categories and a creation collaborator returning
no usable category. -/
def envNoCat : Env := ⟨[], [], none, some 100000, true⟩

/-- Environment with no balance data (the balance query has not produced
any), transfer category present, bulk-create succeeding. -/
def envNoBalance : Env := ⟨[⟨"cat_transfer", "Transferências"⟩], [], none, none, true⟩

/-- C6: if category resolution attempts a creation and the collaborator
returns no usable category, the transfer aborts with
`CategoryResolutionFailed` before any transaction write: no bulk-create
call and no payload on that path. -/
theorem c6_resolution_failure_aborts_before_write (env : Env) (v : FormValues)
    (hnone : env.createCategoryResult = none) :
    Ev.createCategory ∈ (onSubmit env v).events →
      (onSubmit env v).result = .error .CategoryResolutionFailed ∧
      Ev.bulkCreate ∉ (onSubmit env v).events ∧
      (onSubmit env v).bulkPayload = none := by
  unfold onSubmit
  split
  · intro hmem; simp at hmem
  · split
    · intro hmem; simp at hmem
    · dsimp only
      split
      · intro hmem; simp at hmem
      · split
        · intro hmem; simp at hmem
        · unfold resolveStage
          split
          · intro hmem
            exact (submitStage_createCategory_not_mem env v _ _ hmem).elim
          · rw [hnone]
            intro _
            exact ⟨rfl, by simp, rfl⟩

theorem c6_resolution_failure_aborts_before_write_witness :
    (onSubmit envNoCat valsOk).result = .error .CategoryResolutionFailed ∧
    Ev.bulkCreate ∉ (onSubmit envNoCat valsOk).events ∧
    (onSubmit envNoCat valsOk).bulkPayload = none :=
  c6_resolution_failure_aborts_before_write envNoCat valsOk rfl (by decide)

/-- C7: the amount check of `onSubmit` rejects with `InvalidAmount`
exactly when the amount string does not parse (not numeric) or parses to a
non-positive value, and the parser treats "," as a decimal separator
exactly like "." (the first comma is rewritten to a dot before parsing);
accepted amounts are scaled to integer miliunits by
`convertAmountToMiliunits`. -/
theorem c7_invalid_amount_iff_not_numeric_or_nonpositive :
    (∀ env v, ((onSubmit env v).result = .error .InvalidAmount ↔
      (parseAmount v.amount = none ∨
        ∃ x, parseAmount v.amount = some x ∧ x.num ≤ 0))) ∧
    (∀ a b : String, ',' ∉ a.data → ',' ∉ b.data →
      parseAmount (a ++ "," ++ b) = parseAmount (a ++ "." ++ b)) := by
  constructor
  · intro env v
    unfold onSubmit
    cases hp : parseAmount v.amount with
    | none => simp [hp]
    | some x =>
      simp only [hp]
      by_cases h0 : x.num ≤ 0
      · rw [if_pos h0]
        exact iff_of_true rfl (Or.inr ⟨x, rfl, h0⟩)
      · rw [if_neg h0]
        constructor
        · intro hres
          exfalso
          split at hres
          · simp at hres
          · split at hres
            · simp at hres
            · exact resolveStage_result_ne_validation env v _ _ (Or.inl rfl) hres
        · rintro (hnone | ⟨x2, hx2, hle⟩)
          · exact Option.noConfusion hnone
          · obtain rfl := Option.some.inj hx2
            exact absurd hle h0
  · intro a b ha hb
    unfold parseAmount
    have hdata1 : (a ++ "," ++ b).data = a.data ++ ',' :: b.data := by
      cases a; cases b; simp [String.data_append]
    have hdata2 : (a ++ "." ++ b).data = a.data ++ '.' :: b.data := by
      cases a; cases b; simp [String.data_append]
    have hnomem : ',' ∉ a.data ++ '.' :: b.data := by
      intro hmem
      rcases List.mem_append.mp hmem with h | h
      · exact ha h
      · rcases List.mem_cons.mp h with h | h
        · exact absurd h (by decide)
        · exact hb h
    rw [hdata1, hdata2, replaceFirstComma_append_comma a.data b.data ha,
      replaceFirstComma_of_not_mem _ hnomem]

theorem c7_invalid_amount_iff_witness :
    ((onSubmit envOk ⟨1, "acc_1", "acc_2", "-5", none⟩).result = .error .InvalidAmount ↔
      (parseAmount (FormValues.amount ⟨1, "acc_1", "acc_2", "-5", none⟩) = none ∨
        ∃ x, parseAmount (FormValues.amount ⟨1, "acc_1", "acc_2", "-5", none⟩) = some x ∧
          x.num ≤ 0)) ∧
    parseAmount ("12" ++ "," ++ "34") = parseAmount ("12" ++ "." ++ "34") :=
  ⟨c7_invalid_amount_iff_not_numeric_or_nonpositive.1 envOk ⟨1, "acc_1", "acc_2", "-5", none⟩,
   c7_invalid_amount_iff_not_numeric_or_nonpositive.2 "12" "34" (by decide) (by decide)⟩

/-- C8 fails on the code: an invalid amount aborts the submission with no
notification — line 112 returns without calling `toastAlert`, so
`InvalidAmount` is never surfaced to the user. -/
theorem c8_counterexample_invalid_amount_not_surfaced :
    (onSubmit envOk ⟨1, "acc_1", "acc_2", "abc", none⟩).result = .error .InvalidAmount ∧
    Ev.toast .InvalidAmount ∉ (onSubmit envOk ⟨1, "acc_1", "acc_2", "abc", none⟩).events ∧
    (onSubmit envOk ⟨1, "acc_1", "acc_2", "abc", none⟩).events = [.validate] := by
  decide

/-- C8 amended: `SameAccount`, `InsufficientFunds`,
`CategoryResolutionFailed` and `SubmissionFailed` are each surfaced as a
transient notification when they occur, while `InvalidAmount` aborts
silently with no notification; every error is an ordinary return value,
not a crash. -/
theorem c8_amended_errors_surfaced_except_invalid_amount (env : Env) (v : FormValues)
    (e : TransferError) :
    (onSubmit env v).result = .error e →
      (e ≠ .InvalidAmount → Ev.toast e ∈ (onSubmit env v).events) ∧
      (e = .InvalidAmount → ∀ e2, Ev.toast e2 ∉ (onSubmit env v).events) := by
  unfold onSubmit
  split
  · intro hres
    have he : TransferError.InvalidAmount = e := by simpa using hres
    exact ⟨fun hne => absurd he.symm hne, fun _ e2 => by simp⟩
  · split
    · intro hres
      have he : TransferError.InvalidAmount = e := by simpa using hres
      exact ⟨fun hne => absurd he.symm hne, fun _ e2 => by simp⟩
    · dsimp only
      split
      · intro hres
        have he : TransferError.SameAccount = e := by simpa using hres
        subst he
        exact ⟨fun _ => by decide, fun h2 => absurd h2 (by decide)⟩
      · split
        · intro hres
          have he : TransferError.InsufficientFunds = e := by simpa using hres
          subst he
          exact ⟨fun _ => by decide, fun h2 => absurd h2 (by decide)⟩
        · intro hres
          constructor
          · intro _
            exact resolveStage_toast env v _ e hres
          · intro he
            rcases resolveStage_error_cases env v _ e hres with h | h <;>
              (rw [he] at h; exact absurd h (by decide))

theorem c8_amended_errors_surfaced_witness :
    Ev.toast .SameAccount ∈ (onSubmit envOk ⟨1, "acc_1", "acc_1", "10", none⟩).events :=
  (c8_amended_errors_surfaced_except_invalid_amount envOk ⟨1, "acc_1", "acc_1", "10", none⟩
    .SameAccount (by decide)).1 (by decide)

/-- C10 fails on the code: with no balance data (remaining defaults to 0),
the positive amount "0.0001" rounds to 0 miliunits, passes the
insufficient-funds check (`|0| > |0|` is false) and reaches the
bulk-create call — a write occurs instead of an `InsufficientFunds`
rejection. -/
theorem c10_counterexample_tiny_amount_reaches_write :
    envNoBalance.balanceQueryData = none ∧
    parseAmount "0.0001" = some ⟨1, 10000⟩ ∧
    (0 : Int) < (JsNum.num ⟨1, 10000⟩) ∧
    (onSubmit envNoBalance ⟨1, "acc_1", "acc_2", "0.0001", none⟩).result ≠
      .error .InsufficientFunds ∧
    Ev.bulkCreate ∈ (onSubmit envNoBalance ⟨1, "acc_1", "acc_2", "0.0001", none⟩).events := by
  decide

/-- C10 amended: when the balance query has produced no data, the
remaining amount used by validation defaults to 0, so every submission
with distinct accounts whose positive amount converts to at least one
miliunit is rejected with `InsufficientFunds` and no write occurs. -/
theorem c10_amended_no_data_rejects_nonzero_mili (env : Env) (v : FormValues) (q : JsNum)
    (hd : env.balanceQueryData = none)
    (hq : parseAmount v.amount = some q) (h0 : 0 < q.num)
    (hne : v.fromAccountId ≠ v.toAccountId)
    (hm : 1 ≤ |convertAmountToMiliunits q|) :
    remainingOf env = 0 ∧
    (onSubmit env v).result = .error .InsufficientFunds ∧
    Ev.createCategory ∉ (onSubmit env v).events ∧
    Ev.bulkCreate ∉ (onSubmit env v).events ∧
    (onSubmit env v).bulkPayload = none := by
  have hrem : remainingOf env = 0 := by rw [remainingOf, hd]; rfl
  have hgt : |convertAmountToMiliunits q| > |remainingOf env| := by
    rw [hrem, abs_zero]
    exact lt_of_lt_of_le Int.zero_lt_one hm
  unfold onSubmit
  simp only [hq]
  rw [if_neg (not_le.mpr h0), if_neg hne, if_pos hgt]
  exact ⟨hrem, rfl, by decide, by decide, rfl⟩

theorem c10_amended_no_data_rejects_witness :
    remainingOf envNoBalance = 0 ∧
    (onSubmit envNoBalance ⟨1, "acc_1", "acc_2", "50.00", none⟩).result =
      .error .InsufficientFunds ∧
    Ev.createCategory ∉ (onSubmit envNoBalance ⟨1, "acc_1", "acc_2", "50.00", none⟩).events ∧
    Ev.bulkCreate ∉ (onSubmit envNoBalance ⟨1, "acc_1", "acc_2", "50.00", none⟩).events ∧
    (onSubmit envNoBalance ⟨1, "acc_1", "acc_2", "50.00", none⟩).bulkPayload = none :=
  c10_amended_no_data_rejects_nonzero_mili envNoBalance ⟨1, "acc_1", "acc_2", "50.00", none⟩
    ⟨5000, 100⟩ rfl (by decide) (by decide) (by decide) (by decide)

end Inout
